import Mathlib

/-!
Verification of the option-monitoring core of the repository
(option_manager/multi_symbol_watcher.py and option_manager/notifier.py).

The Python source is shallowly embedded as executable Lean definitions:

* Calendar dates are triples of year/month/day; datetime.date arithmetic
  is embedded through a day-count function (days since 1970-01-01, the
  standard civil-from-days computation) and the Python weekday convention
  (Monday = 0).
* Wall-clock times of day are minutes since midnight (datetime.time
  comparison on hour/minute pairs is order-isomorphic to this).
* Prices are exact rationals.  The floating-point square root used by the
  simulated pricing model and the random-number generator are abstracted
  as explicit oracle parameters (a function for math.sqrt and a stream of
  draws for random.random), so every refresh is a deterministic function
  of the state plus those oracles, exactly mirroring the sequence of
  mutations the Python method performs.
* Exceptions are modelled with Except; a caught exception is the error
  branch of a match.
-/

namespace OptionManager

/-- Calendar date given by its components, mirroring datetime.date. -/
structure Date where
  year : ℕ
  month : ℕ
  day : ℕ
deriving DecidableEq, Repr

/-- Gregorian leap-year test, as in the civil calendar used by datetime. -/
def isLeapYear (y : ℕ) : Bool :=
  y % 4 = 0 && (y % 100 ≠ 0 || y % 400 = 0)

/-- Number of days of month m of year y (31 for months outside 1..12,
irrelevant: validity is checked separately). -/
def daysInMonth (y m : ℕ) : ℕ :=
  if m = 2 then (if isLeapYear y then 29 else 28)
  else if m = 4 ∨ m = 6 ∨ m = 9 ∨ m = 11 then 30
  else 31

/-- Validity of a date, as enforced by the datetime.date constructor
(which raises ValueError otherwise): year within 1..9999, month within
1..12, day within 1..days-in-month.  In particular day 0 is invalid. -/
def validDate (d : Date) : Bool :=
  1 ≤ d.year && d.year ≤ 9999 && 1 ≤ d.month && d.month ≤ 12 &&
  1 ≤ d.day && d.day ≤ daysInMonth d.year d.month

/-- Days elapsed since 1970-01-01 (negative before), the standard
civil-from-days day count; this is datetime.date.toordinal shifted by the
constant ordinal of the epoch, so date differences and weekday arithmetic
agree with Python.  Total function; meaningful on valid dates. -/
def dayNumber (d : Date) : ℤ :=
  let y2 := if d.month ≤ 2 then d.year - 1 else d.year
  let era := y2 / 400
  let yoe := y2 - era * 400
  let mp := (d.month + 9) % 12
  let doy := (153 * mp + 2) / 5 + d.day - 1
  let doe := yoe * 365 + yoe / 4 - yoe / 100 + doy
  ((era * 146097 + doe : ℕ) : ℤ) - 719468

/-- Weekday of a day count, in the Python convention of
datetime.date.weekday: Monday = 0 .. Sunday = 6.  1970-01-01 (day count
0) was a Thursday, weekday 3. -/
def ordWeekday (n : ℤ) : ℤ := (n + 3) % 7

/-- Weekday of a date in the Python convention (Monday = 0). -/
def pyWeekday (d : Date) : ℤ := ordWeekday (dayNumber d)

/-- Lexicographic comparison of dates, the order datetime.date objects
compare in (for valid dates it coincides with day-count order). -/
def dateLt (a b : Date) : Bool :=
  a.year < b.year ||
  (a.year = b.year && (a.month < b.month ||
    (a.month = b.month && a.day < b.day)))

/-!
Trading-hours configuration.  In the source this is the symbol
configuration dictionary trading_hours with string fields read through
.get with defaults "09:30" / "16:00" / "04:00" / "20:00"; here each field
is an optional time of day in minutes since midnight, with the same
defaults applied by the accessors.
-/

/-- Trading-hours window of one instrument (times in minutes since
midnight; a missing field falls back to the default of the source). -/
structure TradingHours where
  market_open : Option ℕ := none
  market_close : Option ℕ := none
  pre_market_start : Option ℕ := none
  after_hours_end : Option ℕ := none
deriving DecidableEq, Repr

/-- Market-open time, default 09:30. -/
def TradingHours.openMin (th : TradingHours) : ℕ := th.market_open.getD 570

/-- Market-close time, default 16:00. -/
def TradingHours.closeMin (th : TradingHours) : ℕ := th.market_close.getD 960

/-- Pre-market start time, default 04:00. -/
def TradingHours.preMin (th : TradingHours) : ℕ := th.pre_market_start.getD 240

/-- After-hours end time, default 20:00. -/
def TradingHours.afterMin (th : TradingHours) : ℕ := th.after_hours_end.getD 1200

/-- The trading-hours configuration with every field missing: all four
defaults apply, matching the source defaults. -/
def defaultHours : TradingHours := {}

/-- SymbolWatcher.check_trading_hours (multi_symbol_watcher.py lines
718-811): crypto markets are always tradable; otherwise tradable exactly
on a weekday (Python weekday 0..4; the lower bound 0 <= weekday of the
source is vacuous for naturals) with the current time inside the closed
interval from market open to market close. -/
def check_trading_hours (market : String) (th : TradingHours)
    (weekday t : ℕ) : Bool :=
  if market = "CRYPTO" then true
  else
    let is_weekday := decide (weekday ≤ 4)
    let is_during_market := decide (th.openMin ≤ t) && decide (t ≤ th.closeMin)
    is_weekday && is_during_market

/-- SymbolWatcher.get_market_state (multi_symbol_watcher.py lines
1000-1114): first returns CLOSED whenever check_trading_hours is false,
then OPEN for crypto, then classifies by the pre-market / after-hours
window exactly as the source if/elif chain does. -/
def get_market_state (market : String) (th : TradingHours)
    (weekday t : ℕ) : String :=
  if check_trading_hours market th weekday t = false then "CLOSED"
  else if market = "CRYPTO" then "OPEN"
  else if t < th.preMin ∨ th.afterMin < t then "CLOSED"
  else if t < th.openMin then "PRE_MARKET"
  else if th.closeMin < t then "AFTER_HOURS"
  else "REGULAR_HOURS"

/-- Characterization of the tradable gate for non-crypto markets:
true exactly on a weekday with the time inside open..close. -/
theorem check_trading_hours_eq (market : String) (th : TradingHours)
    (weekday t : ℕ) (hm : market ≠ "CRYPTO") :
    check_trading_hours market th weekday t = true ↔
      (weekday ≤ 4 ∧ th.openMin ≤ t ∧ t ≤ th.closeMin) := by
  unfold check_trading_hours
  rw [if_neg hm]
  simp [and_assoc]

/-- Characterization of the session classifier for non-crypto markets:
the gate is consulted first, so the result is REGULAR_HOURS inside the
gate when the time also lies in the pre..after window, and CLOSED in
every other case. -/
theorem get_market_state_spec (market : String) (th : TradingHours)
    (weekday t : ℕ) (hm : market ≠ "CRYPTO") :
    get_market_state market th weekday t =
      (if weekday ≤ 4 ∧ th.openMin ≤ t ∧ t ≤ th.closeMin then
        (if th.preMin ≤ t ∧ t ≤ th.afterMin then "REGULAR_HOURS"
          else "CLOSED")
        else "CLOSED") := by
  have hgate := check_trading_hours_eq market th weekday t hm
  unfold get_market_state
  cases hb : check_trading_hours market th weekday t with
  | false =>
      rw [hb] at hgate
      simp only [Bool.false_eq_true, false_iff] at hgate
      rw [if_pos rfl, if_neg hgate]
  | true =>
      have hg := hgate.mp hb
      rw [if_neg (by simp), if_neg hm, if_pos hg]
      split_ifs <;> first | rfl | (exfalso ; omega)

/-- C2 counterexample: on a Monday at 08:00 with the default window
(pre-market 04:00, open 09:30) the claim predicts PreMarket, but the code
returns CLOSED, because get_market_state first consults the stricter
check_trading_hours gate and is therefore not independent of it. -/
theorem get_market_state_premarket_refuted :
    get_market_state "US" defaultHours 0 480 = "CLOSED" ∧
    get_market_state "US" defaultHours 0 480 ≠ "PRE_MARKET" ∧
    defaultHours.preMin ≤ 480 ∧ 480 < defaultHours.openMin := by
  decide

/-- C2 (amended): for a non-crypto market the session classifier can only
return CLOSED or REGULAR_HOURS (PRE_MARKET and AFTER_HOURS are
unreachable, since the tradable gate is consulted first), and it returns
REGULAR_HOURS exactly on a weekday with the time inside both the
open..close window and the pre..after window. -/
theorem get_market_state_noncrypto (market : String) (th : TradingHours)
    (weekday t : ℕ) (hm : market ≠ "CRYPTO") :
    (get_market_state market th weekday t = "CLOSED" ∨
      get_market_state market th weekday t = "REGULAR_HOURS") ∧
    (get_market_state market th weekday t = "REGULAR_HOURS" ↔
      (weekday ≤ 4 ∧ th.openMin ≤ t ∧ t ≤ th.closeMin ∧
        th.preMin ≤ t ∧ t ≤ th.afterMin)) := by
  rw [get_market_state_spec market th weekday t hm]
  split_ifs with h1 h2
  · exact ⟨Or.inr rfl, iff_of_true rfl (by omega)⟩
  · exact ⟨Or.inl rfl, iff_of_false (by decide) (by omega)⟩
  · exact ⟨Or.inl rfl, iff_of_false (by decide) (by omega)⟩

/-- C2 amended-claim witness at a concrete input: a non-crypto market on
a Monday inside regular hours with the default window classifies as
REGULAR_HOURS and satisfies both equivalences. -/
theorem get_market_state_noncrypto_witness :
    (("US" : String) ≠ "CRYPTO") ∧
    ((get_market_state "US" defaultHours 0 600 = "CLOSED" ∨
      get_market_state "US" defaultHours 0 600 = "REGULAR_HOURS") ∧
    (get_market_state "US" defaultHours 0 600 = "REGULAR_HOURS" ↔
      (0 ≤ 4 ∧ defaultHours.openMin ≤ 600 ∧ 600 ≤ defaultHours.closeMin ∧
        defaultHours.preMin ≤ 600 ∧ 600 ≤ defaultHours.afterMin))) :=
  ⟨by decide, get_market_state_noncrypto "US" defaultHours 0 600 (by decide)⟩

/-- C5 counterexample: with a configuration whose pre-market start
(10:00) lies after the market open (09:30), a non-crypto instrument on a
Monday at 09:45 is on a weekday inside the open..close interval, yet the
code classifies the session as CLOSED, not Regular — so the claimed
equivalence does not hold for every trading-hours configuration. -/
theorem regular_iff_refuted :
    get_market_state "US"
        { market_open := some 570, market_close := some 960,
          pre_market_start := some 600, after_hours_end := some 1200 }
        0 585 = "CLOSED" ∧
    (0 : ℕ) ≤ 4 ∧ (570 : ℕ) ≤ 585 ∧ (585 : ℕ) ≤ 960 := by
  decide

/-- C5 (amended): for every market, every trading-hours configuration,
every weekday and every time, the session classifier returns one of the
five session values; for a non-crypto market check_trading_hours holds
exactly on a weekday with the time inside the open..close interval (for
every configuration); and for a non-crypto market whose window is
well-formed (pre-market start not after market open, market close not
after the after-hours end) the classifier returns REGULAR_HOURS exactly
under that same weekday and open..close condition. -/
theorem session_classification_and_gate (market : String)
    (th : TradingHours) (weekday t : ℕ) :
    (get_market_state market th weekday t ∈
      (["CLOSED", "PRE_MARKET", "REGULAR_HOURS", "AFTER_HOURS", "OPEN"] :
        List String)) ∧
    (market ≠ "CRYPTO" →
      (check_trading_hours market th weekday t = true ↔
        (weekday ≤ 4 ∧ th.openMin ≤ t ∧ t ≤ th.closeMin))) ∧
    (market ≠ "CRYPTO" → th.preMin ≤ th.openMin → th.closeMin ≤ th.afterMin →
      (get_market_state market th weekday t = "REGULAR_HOURS" ↔
        (weekday ≤ 4 ∧ th.openMin ≤ t ∧ t ≤ th.closeMin))) := by
  refine ⟨?_, ?_, ?_⟩
  · unfold get_market_state
    split_ifs <;> decide
  · intro hm
    exact check_trading_hours_eq market th weekday t hm
  · intro hm hpre haft
    rw [get_market_state_spec market th weekday t hm]
    split_ifs with h1 h2
    · exact iff_of_true rfl h1
    · exact absurd ⟨by omega, by omega⟩ h2
    · exact iff_of_false (by decide) h1

/-- C6: a crypto-market instrument classifies as OPEN and passes the
tradable-hours check at every time, every weekday and every configured
trading-hours window. -/
theorem crypto_always_open (th : TradingHours) (weekday t : ℕ) :
    get_market_state "CRYPTO" th weekday t = "OPEN" ∧
    check_trading_hours "CRYPTO" th weekday t = true := by
  constructor <;> simp [get_market_state, check_trading_hours]

/-!
Snapshot refresh (SymbolWatcher.update_market_data, multi_symbol_watcher.py
lines 334-628) and its simulated pricing model.  random.random() draws are
the successive values of a stream r : ℕ → ℚ (the method consumes draw 0
for the price walk and then four draws per generated option entry, in
loop order), and math.sqrt is an oracle function on rationals.
-/

/-- Python round() with its banker-rounding (half-to-even) tie rule,
applied to an exact rational. -/
def pyRound (q : ℚ) : ℤ :=
  let f := ⌊q⌋
  let frac := q - f
  if frac < 1/2 then f
  else if 1/2 < frac then f + 1
  else if f % 2 = 0 then f else f + 1

/-- Day offset of the "weekly" expiry: the source computes
(4 - today.weekday()) % 7 + 7 (Python % on a positive modulus agrees
with the Euclidean % used here). -/
def weekly_expiry_offset (w : ℤ) : ℤ := (4 - w) % 7 + 7

/-- Day count of the date the "weekly" expiry descriptor resolves to:
today plus the weekly offset (the source adds a timedelta of that many
days, which shifts the ordinal by exactly that amount). -/
def weekly_expiry_num (today : Date) : ℤ :=
  dayNumber today + weekly_expiry_offset (pyWeekday today)

/-- Date the "monthly" expiry descriptor resolves to, mirroring the
source shortcut literally: the day-of-month is computed as
(weekday-of-the-first + 18) % 7, a value in 0..6; constructing the date
with day 0 raises ValueError in Python, modelled as none (the enclosing
try/except of update_market_data turns it into a failed refresh).  When
the computed date precedes today the same formula is applied to the next
month. -/
def monthly_expiry (today : Date) : Option Date :=
  let w1 := pyWeekday { year := today.year, month := today.month, day := 1 }
  let exp1 : Date :=
    { year := today.year, month := today.month, day := ((w1 + 18) % 7).toNat }
  if validDate exp1 then
    if dateLt exp1 today then
      let ny := if today.month < 12 then today.year else today.year + 1
      let nm := if today.month < 12 then today.month + 1 else 1
      let w2 := pyWeekday { year := ny, month := nm, day := 1 }
      let exp2 : Date := { year := ny, month := nm, day := ((w2 + 18) % 7).toNat }
      if validDate exp2 then some exp2 else none
    else some exp1
  else none

/-- Strike-descriptor strings after parsing: ATM, ATM+N, ATM-N, or a
string matching none of the three patterns (skipped by the if/elif
chain of the source). -/
inductive StrikeDesc
  | atm
  | atmPlus (n : ℤ)
  | atmMinus (n : ℤ)
  | unrecognized
deriving DecidableEq, Repr

/-- Strike resolution against the freshly updated price: ATM rounds the
spot, ATM+N / ATM-N shift the rounded spot, in descriptor order. -/
def resolveStrikes (descs : List StrikeDesc) (price : ℚ) : List ℤ :=
  descs.filterMap fun d =>
    match d with
    | StrikeDesc.atm => some (pyRound price)
    | StrikeDesc.atmPlus n => some (pyRound price + n)
    | StrikeDesc.atmMinus n => some (pyRound price - n)
    | StrikeDesc.unrecognized => none

/-- Expiry resolution: the weekly date (when requested) followed by the
monthly date (when requested); a ValueError from the monthly shortcut
aborts the whole refresh, hence the Option.  Dates are represented by
their day counts. -/
def resolveExpiries (prefs : List String) (today : Date) : Option (List ℤ) :=
  let weeklyPart := if "weekly" ∈ prefs then [weekly_expiry_num today] else []
  if "monthly" ∈ prefs then
    match monthly_expiry today with
    | none => none
    | some d => some (weeklyPart ++ [dayNumber d])
  else some weeklyPart

/-- One generated option quote (the per-strike dictionary of the source). -/
structure OptionEntry where
  call : ℚ
  put : ℚ
  call_bid : ℚ
  call_ask : ℚ
  put_bid : ℚ
  put_ask : ℚ
  iv_call : ℚ
  iv_put : ℚ
deriving DecidableEq, Repr

/-- Option chain: expiries (as day counts) to strikes to quotes.
Association lists mirror the nested dictionaries; preferred strikes and
expiries are distinct in practice, so key collisions are not modelled. -/
abbrev OptionChain := List (ℤ × List (ℤ × OptionEntry))

/-- SymbolWatcher._simulate_option_price (lines 634-712): intrinsic value
plus a time value of spot * vol * sqrt(t) * 0.4 with vol = 0.3, scaled
by a random factor within five percent; sqrtOf stands for math.sqrt and
rnd for the single random.random() draw of the call. -/
def simulate_option_price (sqrtOf : ℚ → ℚ) (rnd : ℚ) (option_type : String)
    (spot strike : ℚ) (days_to_expiry : ℤ) : ℚ :=
  let t : ℚ := (days_to_expiry : ℚ) / 365
  let vol : ℚ := 3/10
  let intrinsic :=
    if option_type = "call" then max 0 (spot - strike) else max 0 (strike - spot)
  let time_value := spot * vol * sqrtOf t * (4/10)
  let random_factor := 1 + (rnd - 1/2) * (1/10)
  (intrinsic + time_value) * random_factor

/-- The per-strike dictionary built by the refresh loop: call and put
simulated prices (draws i and i+1), bid/ask at five percent around each
price, and the two implied-volatility draws (i+2 and i+3). -/
def optionEntryFor (sqrtOf : ℚ → ℚ) (r : ℕ → ℚ) (i : ℕ) (spot : ℚ)
    (strike days : ℤ) : OptionEntry :=
  let call_price := simulate_option_price sqrtOf (r i) "call" spot (strike : ℚ) days
  let put_price := simulate_option_price sqrtOf (r (i + 1)) "put" spot (strike : ℚ) days
  { call := call_price
    put := put_price
    call_bid := call_price * (95/100)
    call_ask := call_price * (105/100)
    put_bid := put_price * (95/100)
    put_ask := put_price * (105/100)
    iv_call := 3/10 + (r (i + 2) - 1/2) * (1/10)
    iv_put := 3/10 + (r (i + 3) - 1/2) * (1/10) }

/-- Inner loop of the chain generation: one entry per strike, consuming
four random draws per entry starting at index i. -/
def strikeEntries (sqrtOf : ℚ → ℚ) (r : ℕ → ℚ) (spot : ℚ) (days : ℤ) :
    ℕ → List ℤ → List (ℤ × OptionEntry)
  | _, [] => []
  | i, k :: ks =>
      (k, optionEntryFor sqrtOf r i spot k days) ::
        strikeEntries sqrtOf r spot days (i + 4) ks

/-- Outer loop of the chain generation: one block per expiry, with
days-to-expiry the day-count difference to today, the random counter
advancing by four draws per strike. -/
def expiryEntries (sqrtOf : ℚ → ℚ) (r : ℕ → ℚ) (todayNum : ℤ) (spot : ℚ)
    (strikes : List ℤ) : ℕ → List ℤ → OptionChain
  | _, [] => []
  | i, e :: es =>
      (e, strikeEntries sqrtOf r spot (e - todayNum) i strikes) ::
        expiryEntries sqrtOf r todayNum spot strikes (i + 4 * strikes.length) es

/-- The full freshly generated option chain of one refresh. -/
def buildChain (sqrtOf : ℚ → ℚ) (r : ℕ → ℚ) (todayNum : ℤ)
    (expiries strikes : List ℤ) (spot : ℚ) : OptionChain :=
  expiryEntries sqrtOf r todayNum spot strikes 0 expiries

/-- Per-symbol configuration slice consumed by update_market_data. -/
structure WatcherConfig where
  options_enabled : Bool
  preferred_strikes : List StrikeDesc
  preferred_expiries : List String

/-- Mutable snapshot state of one SymbolWatcher: spot price, last-update
timestamp (an opaque token) and the current option chain. -/
structure WatcherData where
  current_price : Option ℚ
  last_update : Option ℕ
  current_options : OptionChain
deriving DecidableEq

/-- SymbolWatcher.update_market_data (lines 334-628).  The price walk and
the last_update timestamp are written to self before the option chain is
generated; a ValueError inside the expiry computation is caught by the
enclosing try/except, which returns False with those earlier mutations
already applied and the old chain untouched.  On success the chain is
replaced wholesale. -/
def update_market_data (cfg : WatcherConfig) (sqrtOf : ℚ → ℚ) (r : ℕ → ℚ)
    (today : Date) (now : ℕ) (st : WatcherData) : Bool × WatcherData :=
  let price := match st.current_price with
    | none => 100 + r 0 * 100
    | some p => p * (1 + (r 0 - 1/2) * (1/100))
  let st1 : WatcherData :=
    { st with current_price := some price, last_update := some now }
  if cfg.options_enabled then
    let strikes := resolveStrikes cfg.preferred_strikes price
    match resolveExpiries cfg.preferred_expiries today with
    | none => (false, st1)
    | some expiries =>
        let chain :=
          buildChain sqrtOf (fun i => r (i + 1)) (dayNumber today)
            expiries strikes price
        (true, { st1 with current_options := chain })
  else (true, st1)

/-- C7 (amended): for every current date the weekly expiry resolves to a
date 7 to 13 days after today that is strictly after today and is a
Friday — the Friday of the following week, which is the nearest Friday
strictly after today only when today itself is a Friday. -/
theorem weekly_expiry_friday (today : Date) :
    7 ≤ weekly_expiry_offset (pyWeekday today) ∧
    weekly_expiry_offset (pyWeekday today) ≤ 13 ∧
    ordWeekday (weekly_expiry_num today) = 4 ∧
    dayNumber today < weekly_expiry_num today := by
  unfold weekly_expiry_num weekly_expiry_offset pyWeekday ordWeekday
  omega

/-- C7 counterexample: on Thursday 2024-01-11 the resolved weekly expiry
is 8 days out, although the very next day (1 day out) is already a
Friday strictly after today — so the resolved date is not the next
Friday strictly after today. -/
theorem weekly_expiry_skips_nearest_friday :
    weekly_expiry_num { year := 2024, month := 1, day := 11 } =
      dayNumber { year := 2024, month := 1, day := 11 } + 8 ∧
    ordWeekday (dayNumber { year := 2024, month := 1, day := 11 } + 1) = 4 ∧
    weekly_expiry_num { year := 2024, month := 1, day := 11 } ≠
      dayNumber { year := 2024, month := 1, day := 11 } + 1 := by
  decide

/-- C4: the monthly-expiry shortcut is broken.  From 2024-01-02 it
resolves to 2024-01-04, which is a Thursday, not the third Friday of
January 2024 (that is 2024-01-19); and from 2024-01-10 the January value
2024-01-04 lies in the past, the formula for February 2024 yields day 0,
and the date construction fails (ValueError), so no monthly expiry is
produced at all. -/
theorem monthly_expiry_shortcut_bug :
    monthly_expiry { year := 2024, month := 1, day := 2 } =
      some { year := 2024, month := 1, day := 4 } ∧
    ordWeekday (dayNumber { year := 2024, month := 1, day := 4 }) ≠ 4 ∧
    ordWeekday (dayNumber { year := 2024, month := 1, day := 19 }) = 4 ∧
    monthly_expiry { year := 2024, month := 1, day := 10 } = none := by
  decide

/-- Refresh input on which the monthly shortcut raises: February 2024
starts on a Thursday, so the shortcut yields day 0. -/
def c3Config : WatcherConfig :=
  { options_enabled := true
    preferred_strikes := [StrikeDesc.atm]
    preferred_expiries := ["monthly"] }

/-- Prior snapshot state for the failing-refresh scenario. -/
def c3State : WatcherData :=
  { current_price := some 100, last_update := some 5, current_options := [] }

/-- The refresh from 2024-02-10 with the monthly descriptor fails. -/
theorem c3_update_fails :
    (update_market_data c3Config (fun _ => 0) (fun _ => 0)
      { year := 2024, month := 2, day := 10 } 77 c3State).1 = false := by
  have hm : monthly_expiry { year := 2024, month := 2, day := 10 } = none := by
    decide
  simp [update_market_data, c3Config, c3State, resolveExpiries, hm]

/-- C3 counterexample: a failing refresh (monthly shortcut ValueError on
2024-02-10) returns False, yet the price has already been stepped from
100 to 99.5 and last_update has been overwritten — the prior
PriceSnapshot is not retained on failure. -/
theorem refresh_failure_mutates_snapshot :
    (update_market_data c3Config (fun _ => 0) (fun _ => 0)
      { year := 2024, month := 2, day := 10 } 77 c3State).1 = false ∧
    c3State.current_price = some 100 ∧
    (update_market_data c3Config (fun _ => 0) (fun _ => 0)
      { year := 2024, month := 2, day := 10 } 77 c3State).2.current_price =
      some (199/2) ∧
    ((199 : ℚ)/2) ≠ 100 ∧
    c3State.last_update = some 5 ∧
    (update_market_data c3Config (fun _ => 0) (fun _ => 0)
      { year := 2024, month := 2, day := 10 } 77 c3State).2.last_update =
      some 77 ∧
    (77 : ℕ) ≠ 5 := by
  have hm : monthly_expiry { year := 2024, month := 2, day := 10 } = none := by
    decide
  refine ⟨c3_update_fails, rfl, ?_, by norm_num, rfl, ?_, by decide⟩ <;>
    simp [update_market_data, c3Config, c3State, resolveExpiries, hm] <;>
    norm_num

/-- C3 (amended): whenever update_market_data reports failure the option
chain is exactly the one from before the call (the failure happens
before the wholesale chain replacement), and the failure is reported
through the returned boolean; the price and timestamp, however, may
already have been advanced, as the counterexample shows. -/
theorem update_failure_preserves_options (cfg : WatcherConfig)
    (sqrtOf : ℚ → ℚ) (r : ℕ → ℚ) (today : Date) (now : ℕ) (st : WatcherData)
    (hfail : (update_market_data cfg sqrtOf r today now st).1 = false) :
    (update_market_data cfg sqrtOf r today now st).2.current_options =
      st.current_options := by
  unfold update_market_data at hfail ⊢
  cases hopt : cfg.options_enabled with
  | false => simp [hopt] at hfail
  | true =>
      cases hexp : resolveExpiries cfg.preferred_expiries today with
      | none => simp [hopt, hexp]
      | some expiries => simp [hopt, hexp] at hfail

/-- C3 amended-claim witness: the concrete failing refresh of the
counterexample indeed leaves current_options untouched. -/
theorem update_failure_preserves_options_witness :
    ((update_market_data c3Config (fun _ => 0) (fun _ => 0)
      { year := 2024, month := 2, day := 10 } 77 c3State).1 = false) ∧
    (update_market_data c3Config (fun _ => 0) (fun _ => 0)
      { year := 2024, month := 2, day := 10 } 77 c3State).2.current_options =
      c3State.current_options :=
  ⟨c3_update_fails,
    update_failure_preserves_options c3Config _ _ _ 77 c3State c3_update_fails⟩

/-- Five-percent spread around a non-negative quote. -/
theorem spread_around (c : ℚ) (h : 0 ≤ c) :
    c * (95/100) ≤ c ∧ c ≤ c * (105/100) := by
  constructor <;> nlinarith

/-- Every element of the inner chain loop is an optionEntryFor value. -/
theorem strikeEntries_mem (sqrtOf : ℚ → ℚ) (r : ℕ → ℚ) (spot : ℚ) (days : ℤ)
    (ks : List ℤ) :
    ∀ (i : ℕ), ∀ se ∈ strikeEntries sqrtOf r spot days i ks,
      ∃ j k, se = (k, optionEntryFor sqrtOf r j spot k days) := by
  induction ks with
  | nil => intro i se h; cases h
  | cons k ks ih =>
      intro i se hse
      rcases List.mem_cons.1 hse with h | h
      · exact ⟨i, k, h⟩
      · exact ih (i + 4) se h

/-- Every block of the outer chain loop is a strikeEntries block. -/
theorem expiryEntries_mem (sqrtOf : ℚ → ℚ) (r : ℕ → ℚ) (todayNum : ℤ)
    (spot : ℚ) (strikes : List ℤ) (es : List ℤ) :
    ∀ (i : ℕ), ∀ ep ∈ expiryEntries sqrtOf r todayNum spot strikes i es,
      ∃ e j, ep = (e, strikeEntries sqrtOf r spot (e - todayNum) j strikes) := by
  induction es with
  | nil => intro i ep h; cases h
  | cons e es ih =>
      intro i ep hep
      rcases List.mem_cons.1 hep with h | h
      · exact ⟨e, i, h⟩
      · exact ih (i + 4 * strikes.length) ep h

/-- C8: every option-chain entry generated by a successful refresh with
options enabled satisfies bid below price below ask on the call side and
on the put side, given that the simulated option price recorded in the
entry is non-negative (the simulated price is the only input to the
bid/ask construction, which scales it by 0.95 and 1.05). -/
theorem option_chain_bid_ask (cfg : WatcherConfig) (sqrtOf : ℚ → ℚ)
    (r : ℕ → ℚ) (today : Date) (now : ℕ) (st : WatcherData)
    (ep : ℤ × List (ℤ × OptionEntry)) (se : ℤ × OptionEntry)
    (hen : cfg.options_enabled = true)
    (hok : (update_market_data cfg sqrtOf r today now st).1 = true)
    (hep : ep ∈ (update_market_data cfg sqrtOf r today now st).2.current_options)
    (hse : se ∈ ep.2) :
    (0 ≤ se.2.call → se.2.call_bid ≤ se.2.call ∧ se.2.call ≤ se.2.call_ask) ∧
    (0 ≤ se.2.put → se.2.put_bid ≤ se.2.put ∧ se.2.put ≤ se.2.put_ask) := by
  cases hexp : resolveExpiries cfg.preferred_expiries today with
  | none => simp [update_market_data, hen, hexp] at hok
  | some expiries =>
      simp [update_market_data, hen, hexp] at hep
      unfold buildChain at hep
      obtain ⟨e, j, rfl⟩ := expiryEntries_mem _ _ _ _ _ _ 0 ep hep
      obtain ⟨j2, k, rfl⟩ := strikeEntries_mem _ _ _ _ _ j se hse
      exact ⟨fun h => spread_around _ h, fun h => spread_around _ h⟩

/-- Refresh scenario that succeeds: weekly expiry only, fresh price. -/
def c8Config : WatcherConfig :=
  { options_enabled := true
    preferred_strikes := [StrikeDesc.atm]
    preferred_expiries := ["weekly"] }

/-- Empty prior state for the successful-refresh scenario. -/
def c8State : WatcherData :=
  { current_price := none, last_update := none, current_options := [] }

/-- The successful refresh of the C8 witness scenario, with zero oracles
(sqrt constantly 0, every random draw 0). -/
def c8Update : Bool × WatcherData :=
  update_market_data c8Config (fun _ => 0) (fun _ => 0)
    { year := 2024, month := 1, day := 2 } 0 c8State

/-- The single option entry the C8 witness refresh generates. -/
def c8Entry : OptionEntry :=
  { call := 0, put := 0, call_bid := 0, call_ask := 0, put_bid := 0
    put_ask := 0, iv_call := 1/4, iv_put := 1/4 }

/-- The single expiry block the C8 witness refresh generates
(2024-01-12 is day count 19734, strike 100). -/
def c8Block : ℤ × List (ℤ × OptionEntry) := (19734, [(100, c8Entry)])

/-- Concrete evaluation of the witness refresh: it succeeds and its
chain is exactly the single block above. -/
theorem c8Update_eval :
    c8Update.1 = true ∧ c8Update.2.current_options = [c8Block] := by
  have h1 : weekly_expiry_num { year := 2024, month := 1, day := 2 } = 19734 := by
    decide
  have h0 : dayNumber { year := 2024, month := 1, day := 2 } = 19724 := by
    decide
  have hr : resolveExpiries ["weekly"] { year := 2024, month := 1, day := 2 } =
      some [19734] := by
    simp [resolveExpiries, h1]
  have hps : (100 + (0 : ℚ) * 100) = 100 := by norm_num
  have hp : pyRound (100 : ℚ) = 100 := by norm_num [pyRound]
  constructor <;>
    simp [c8Update, update_market_data, c8Config, c8State, hr, h0, hps, hp,
      buildChain, expiryEntries, strikeEntries, resolveStrikes, c8Block,
      c8Entry, optionEntryFor, simulate_option_price] <;>
    norm_num

/-- C8 witness: in the concrete successful refresh the generated entry
satisfies both bid/price/ask chains. -/
theorem option_chain_bid_ask_witness :
    (c8Config.options_enabled = true ∧ c8Update.1 = true ∧
      c8Block ∈ c8Update.2.current_options ∧
      ((100 : ℤ), c8Entry) ∈ c8Block.2) ∧
    ((0 ≤ ((100 : ℤ), c8Entry).2.call →
        ((100 : ℤ), c8Entry).2.call_bid ≤ ((100 : ℤ), c8Entry).2.call ∧
        ((100 : ℤ), c8Entry).2.call ≤ ((100 : ℤ), c8Entry).2.call_ask) ∧
      (0 ≤ ((100 : ℤ), c8Entry).2.put →
        ((100 : ℤ), c8Entry).2.put_bid ≤ ((100 : ℤ), c8Entry).2.put ∧
        ((100 : ℤ), c8Entry).2.put ≤ ((100 : ℤ), c8Entry).2.put_ask)) :=
  ⟨⟨rfl, c8Update_eval.1, by rw [c8Update_eval.2]; exact List.mem_singleton.2 rfl,
      by exact List.mem_singleton.2 rfl⟩,
    option_chain_bid_ask c8Config (fun _ => 0) (fun _ => 0)
      { year := 2024, month := 1, day := 2 } 0 c8State c8Block
      ((100 : ℤ), c8Entry) rfl c8Update_eval.1
      (by rw [show (update_market_data c8Config (fun _ => 0) (fun _ => 0)
          { year := 2024, month := 1, day := 2 } 0 c8State) = c8Update from rfl,
        c8Update_eval.2]; exact List.mem_singleton.2 rfl)
      (by exact List.mem_singleton.2 rfl)⟩

/-!
Per-instrument monitoring cycle (SymbolWatcher.run_one_cycle, lines
1348-1471) and the multi-instrument scheduler (MultiSymbolWatcher.run_once,
lines 2080-2179).  The five steps of a cycle — snapshot refresh, tradable
gate, session classification, strategy run, signal drain — are step
outcomes bundled as Except values: the ok branch is a normal return and
the error branch an exception raised inside the step, which the
try/except of run_one_cycle converts into the error result dictionary.
-/

/-- Trading signal as produced by run_strategies (the fields the claims
inspect; signals are only counted and forwarded). -/
structure Signal where
  symbol : String
  strategy : String
  type : String
deriving DecidableEq, Repr

/-- Outcomes of the five steps of one cycle for one instrument, plus the
price and timestamp read while building the result dictionary. -/
structure CycleInputs where
  refresh : Except String Bool
  tradable : Except String Bool
  market_state : Except String String
  strategies : Except String (List Signal)
  drain : Except String (List Signal)
  price : Option ℚ
  now : ℕ

/-- Result dictionary of one cycle.  Option fields model presence of the
corresponding dictionary key: the error dictionary carries only symbol,
error and timestamp. -/
structure CycleResult where
  symbol : String
  data_updated : Option Bool := none
  market_state : Option String := none
  signals : Option (List Signal) := none
  current_price : Option (Option ℚ) := none
  timestamp : ℕ
  processed_signals : Option (List Signal) := none
  error : Option String := none
deriving DecidableEq, Repr

/-- Body of the try block of run_one_cycle: the steps in source order,
propagating the first raised exception; strategies run only when the
cycle is tradable and the refresh succeeded, otherwise the signals list
stays the empty list the dictionary is initialized with. -/
def cycleBody (ci : CycleInputs) :
    Except String (Bool × String × List Signal × List Signal) :=
  match ci.refresh with
  | Except.error e => Except.error e
  | Except.ok du =>
    match ci.tradable with
    | Except.error e => Except.error e
    | Except.ok th =>
      match ci.market_state with
      | Except.error e => Except.error e
      | Except.ok ms =>
        match (if th && du then ci.strategies else Except.ok []) with
        | Except.error e => Except.error e
        | Except.ok sigs =>
          match ci.drain with
          | Except.error e => Except.error e
          | Except.ok proc => Except.ok (du, ms, sigs, proc)

/-- SymbolWatcher.run_one_cycle: the full result dictionary on success,
the three-key error dictionary when any step raises. -/
def run_one_cycle (symbol : String) (ci : CycleInputs) : CycleResult :=
  match cycleBody ci with
  | Except.ok (du, ms, sigs, proc) =>
      { symbol := symbol
        data_updated := some du
        market_state := some ms
        signals := some sigs
        current_price := some ci.price
        timestamp := ci.now
        processed_signals := some proc
        error := none }
  | Except.error e =>
      { symbol := symbol, error := some e, timestamp := ci.now }

/-- Truthiness test the scheduler applies to one result:
result.get("signals") is truthy and non-empty (an absent key — the error
dictionary — and an empty list both fail it). -/
def hasSignalEntries (res : CycleResult) : Bool :=
  match res.signals with
  | none => false
  | some l => decide (0 < l.length)

/-- Scheduler state relevant to the summary policy: the last_summary_hour
attribute, which does not exist until the first summary is emitted
(hasattr is isSome). -/
structure SchedulerState where
  last_summary_hour : Option ℕ
deriving DecidableEq, Repr

/-- MultiSymbolWatcher.run_once: runs every instrument cycle in
configuration order, aggregates the results keyed by symbol, and emits
the summary (the returned Bool) when some cycle produced signals or when
the last_summary_hour attribute exists and differs from the current
hour; on emission the current hour is recorded. -/
def run_once (st : SchedulerState) (watchers : List (String × CycleInputs))
    (currentHour : ℕ) :
    List (String × CycleResult) × Bool × SchedulerState :=
  let results := watchers.map fun p => (p.1, run_one_cycle p.1 p.2)
  let has_signals := results.any fun p => hasSignalEntries p.2
  let hourly_update :=
    match st.last_summary_hour with
    | none => false
    | some h => decide (h ≠ currentHour)
  let emit := has_signals || hourly_update
  (results, emit,
    if emit then { last_summary_hour := some currentHour } else st)

/-- Results of run_once are the per-symbol cycle results in order. -/
theorem run_once_results (st : SchedulerState)
    (watchers : List (String × CycleInputs)) (currentHour : ℕ) :
    (run_once st watchers currentHour).1 =
      watchers.map fun p => (p.1, run_one_cycle p.1 p.2) := by
  rfl

/-- C1 counterexample: from the initial scheduler state (no
last_summary_hour attribute yet) a run_once during some wall-clock hour
with no signals emits no summary at all — the hourly heartbeat does not
fire before the first emission, contradicting the claim that every
distinct hour produces at least one summary from the initial state. -/
theorem first_hour_no_heartbeat :
    (run_once { last_summary_hour := none }
      [("SPY",
        { refresh := Except.ok true
          tradable := Except.ok false
          market_state := Except.ok "CLOSED"
          strategies := Except.ok []
          drain := Except.ok []
          price := none
          now := 0 })] 10).2.1 = false ∧
    ({ last_summary_hour := none } : SchedulerState).last_summary_hour =
      none := by
  constructor
  · rfl
  · rfl

/-- C1 (amended): a summary is emitted by run_once exactly when some
instrument produced signals this cycle or when the last_summary_hour
attribute already exists and differs from the current hour; on emission
the current hour is recorded, otherwise the scheduler state is
unchanged.  Before any summary has ever been emitted the attribute does
not exist, so signal-free cycles emit nothing even in a fresh hour. -/
theorem summary_emission_policy (st : SchedulerState)
    (watchers : List (String × CycleInputs)) (currentHour : ℕ) :
    ((run_once st watchers currentHour).2.1 = true ↔
      ((run_once st watchers currentHour).1.any
          fun p => hasSignalEntries p.2) = true ∨
        (∃ h, st.last_summary_hour = some h ∧ h ≠ currentHour)) ∧
    ((run_once st watchers currentHour).2.1 = true →
      (run_once st watchers currentHour).2.2 =
        { last_summary_hour := some currentHour }) ∧
    ((run_once st watchers currentHour).2.1 = false →
      (run_once st watchers currentHour).2.2 = st) := by
  unfold run_once
  cases hl : st.last_summary_hour with
  | none =>
      by_cases hs : (watchers.map fun p => (p.1, run_one_cycle p.1 p.2)).any
          (fun p => hasSignalEntries p.2) = true <;>
        simp [hs]
  | some h =>
      by_cases hs : (watchers.map fun p => (p.1, run_one_cycle p.1 p.2)).any
          (fun p => hasSignalEntries p.2) = true <;>
        by_cases hh : h = currentHour <;>
        simp [hs, hh]

/-- C9: when any step of an instrument cycle raises, run_one_cycle
returns the three-key error dictionary (symbol, error description,
timestamp — in particular no signals key), and run_once still carries
that instrument result and one result per configured instrument, in
order. -/
theorem cycle_error_contained (st : SchedulerState) (currentHour : ℕ)
    (watchers : List (String × CycleInputs)) (s : String) (ci : CycleInputs)
    (e : String) (hmem : (s, ci) ∈ watchers)
    (herr : cycleBody ci = Except.error e) :
    run_one_cycle s ci =
      { symbol := s, error := some e, timestamp := ci.now } ∧
    (run_one_cycle s ci).signals = none ∧
    (run_one_cycle s ci).error = some e ∧
    (s, run_one_cycle s ci) ∈ (run_once st watchers currentHour).1 ∧
    (run_once st watchers currentHour).1.map Prod.fst =
      watchers.map Prod.fst := by
  have hres : run_one_cycle s ci =
      { symbol := s, error := some e, timestamp := ci.now } := by
    unfold run_one_cycle
    rw [herr]
  refine ⟨hres, by rw [hres], by rw [hres], ?_, ?_⟩
  · rw [run_once_results]
    exact List.mem_map_of_mem (fun p => (p.1, run_one_cycle p.1 p.2)) hmem
  · rw [run_once_results, List.map_map]
    rfl

/-- Cycle inputs whose refresh step raises. -/
def badCycle : CycleInputs :=
  { refresh := Except.error "boom"
    tradable := Except.ok true
    market_state := Except.ok "REGULAR_HOURS"
    strategies := Except.ok []
    drain := Except.ok []
    price := some 10
    now := 3 }

/-- Cycle inputs that run through without an exception. -/
def goodCycle : CycleInputs :=
  { refresh := Except.ok true
    tradable := Except.ok true
    market_state := Except.ok "REGULAR_HOURS"
    strategies := Except.ok []
    drain := Except.ok []
    price := some 20
    now := 3 }

/-- C9 witness: with one raising instrument and one healthy instrument,
the raising one is reported as the error dictionary and both instruments
appear in the aggregated results. -/
theorem cycle_error_contained_witness :
    ((("SPY", badCycle) ∈ [("SPY", badCycle), ("QQQ", goodCycle)]) ∧
      cycleBody badCycle = Except.error "boom") ∧
    (run_one_cycle "SPY" badCycle =
      { symbol := "SPY", error := some "boom", timestamp := badCycle.now } ∧
    (run_one_cycle "SPY" badCycle).signals = none ∧
    (run_one_cycle "SPY" badCycle).error = some "boom" ∧
    ("SPY", run_one_cycle "SPY" badCycle) ∈
      (run_once { last_summary_hour := none }
        [("SPY", badCycle), ("QQQ", goodCycle)] 10).1 ∧
    (run_once { last_summary_hour := none }
        [("SPY", badCycle), ("QQQ", goodCycle)] 10).1.map Prod.fst =
      [("SPY", badCycle), ("QQQ", goodCycle)].map Prod.fst) :=
  ⟨⟨List.mem_cons_self _ _, rfl⟩,
    cycle_error_contained { last_summary_hour := none } 10
      [("SPY", badCycle), ("QQQ", goodCycle)] "SPY" badCycle "boom"
      (List.mem_cons_self _ _) rfl⟩

/-!
Notifier (option_manager/notifier.py, OptionNotifier.send_message lines
295-392).  Each platform delivery helper has its own try/except and
always returns a result dictionary, never raises; the delivery outcomes
are inputs here.
-/

/-- Result dictionary of one platform delivery attempt. -/
structure SendResult where
  success : Bool
  error : Option String := none
deriving DecidableEq, Repr

/-- Notifier state: the three platform-enabled flags (fixed at
construction from the configuration) and the notification counter. -/
structure NotifierState where
  telegram_enabled : Bool
  discord_enabled : Bool
  feishu_enabled : Bool
  notification_count : ℕ
deriving DecidableEq, Repr

/-- OptionNotifier.send_message: increments the counter, then attempts
delivery on each enabled platform in the fixed order telegram, discord,
feishu, recording each attempt outcome under the platform key;
tR, dR and fR are the outcomes the three delivery helpers would return
(each helper catches its own exceptions, so an attempt always yields a
result and never prevents the following attempts). -/
def send_message (st : NotifierState) (tR dR fR : SendResult) :
    List (String × SendResult) × NotifierState :=
  let st1 := { st with notification_count := st.notification_count + 1 }
  let results :=
    (if st.telegram_enabled then [("telegram", tR)] else []) ++
    (if st.discord_enabled then [("discord", dR)] else []) ++
    (if st.feishu_enabled then [("feishu", fR)] else [])
  (results, st1)

/-- C10: every send_message call increments notification_count by exactly
one; the returned dictionary has exactly one entry per enabled platform
(none when no platform is enabled — in particular the telegram, discord
and feishu keys are present exactly when the respective platform is
enabled, each carrying its own delivery outcome regardless of the other
outcomes, so one failed channel never suppresses another). -/
theorem send_message_per_channel (st : NotifierState) (tR dR fR : SendResult) :
    ((send_message st tR dR fR).2.notification_count =
      st.notification_count + 1) ∧
    ((send_message st tR dR fR).1.map Prod.fst =
      (if st.telegram_enabled then ["telegram"] else []) ++
      (if st.discord_enabled then ["discord"] else []) ++
      (if st.feishu_enabled then ["feishu"] else [])) ∧
    (∀ res : SendResult, ("telegram", res) ∈ (send_message st tR dR fR).1 ↔
      (st.telegram_enabled = true ∧ res = tR)) ∧
    (∀ res : SendResult, ("discord", res) ∈ (send_message st tR dR fR).1 ↔
      (st.discord_enabled = true ∧ res = dR)) ∧
    (∀ res : SendResult, ("feishu", res) ∈ (send_message st tR dR fR).1 ↔
      (st.feishu_enabled = true ∧ res = fR)) := by
  unfold send_message
  cases ht : st.telegram_enabled <;>
    cases hd : st.discord_enabled <;>
    cases hf : st.feishu_enabled <;>
    refine ⟨rfl, rfl, ?_, ?_, ?_⟩ <;>
    intro res <;>
    simp

end OptionManager
